import Mathlib

/-!
Verification development for the graph-mcp ingestion pipeline.

The Go sources are shallowly embedded: pure computations become Lean
functions; every interaction with the outside world (process environment,
file system, HTTP transport, JSON decoding by the standard library, the
KuzuDB store) is passed in explicitly as an oracle argument, and the
control flow of each Go function is translated branch by branch.
Machine floats appear only as opaque data (`Float` values are constructed
and stored, never compared), byte slices are `List Nat` with values
0..255, and Go's `(value, error)` returns become `Except String`.
-/

/-- An outbound HTTP request as assembled by the Go services:
method, URL, the `Set`-header calls in order, and the serialized body. -/
structure HttpRequest where
  method : String
  url : String
  headers : List (String × String)
  body : String
deriving DecidableEq

/-- The parts of an `*http.Response` the Go code reads: `StatusCode`,
the status line `Status` (e.g. "500 Internal Server Error"), and the body. -/
structure HttpResponse where
  statusCode : Nat
  status : String
  body : String
deriving DecidableEq

/-- Models Go `encoding/json` escaping of one character inside a JSON
string literal: `"` `\` and ASCII control characters are escaped, and
`encoding/json` additionally escapes `<` `>` `&` as `\u00XX`. -/
def goJsonEscapeChar (c : Char) : String :=
  if c = '"' then "\\\""
  else if c = '\\' then "\\\\"
  else if c = '\n' then "\\n"
  else if c = '\r' then "\\r"
  else if c = '\t' then "\\t"
  else if c = '<' then "\\u003c"
  else if c = '>' then "\\u003e"
  else if c = '&' then "\\u0026"
  else if c.toNat < 32 then
    "\\u00" ++ String.mk [Nat.digitChar (c.toNat / 16), Nat.digitChar (c.toNat % 16)]
  else String.mk [c]

/-- Go `encoding/json` escaping of a whole string. -/
def goJsonEscape (s : String) : String :=
  String.join (s.data.map goJsonEscapeChar)

/-- The standard base64 alphabet used by Go's `base64.StdEncoding`. -/
def base64Alphabet : String :=
  "ABCDEFGHIJKLMNOPQRSTUVWXYZabcdefghijklmnopqrstuvwxyz0123456789+/"

/-- The base64 digit for a 6-bit group. -/
def base64Digit (n : Nat) : Char := base64Alphabet.data.getD n 'A'

/-- `base64.StdEncoding.EncodeToString`: standard base64 with `=` padding
over a byte sequence (each input entry is a byte, 0..255). -/
def base64Encode : List Nat → String
  | [] => ""
  | [b1] =>
    String.mk [base64Digit (b1 / 4 % 64), base64Digit (b1 % 4 * 16)] ++ "=="
  | [b1, b2] =>
    String.mk [base64Digit (b1 / 4 % 64), base64Digit (b1 % 4 * 16 + b2 / 16),
      base64Digit (b2 % 16 * 4)] ++ "="
  | b1 :: b2 :: b3 :: rest =>
    String.mk [base64Digit (b1 / 4 % 64), base64Digit (b1 % 4 * 16 + b2 / 16),
      base64Digit (b2 % 16 * 4 + b3 / 64), base64Digit (b3 % 64)] ++ base64Encode rest

namespace embedding

/-- `type EmbeddingType string` from the embedding package. -/
abbrev EmbeddingType := String

/-- `EmbeddingTypeRetrievalDocument EmbeddingType = "RETRIEVAL_DOCUMENT"`. -/
def EmbeddingTypeRetrievalDocument : EmbeddingType := "RETRIEVAL_DOCUMENT"

/-- `EmbeddintTypeRetrievalQuery EmbeddingType = "RETRIEVAL_QUERY"`
(the misspelling is the source's). -/
def EmbeddintTypeRetrievalQuery : EmbeddingType := "RETRIEVAL_QUERY"

/-- `type Provider string` from the embedding package. -/
abbrev Provider := String

/-- `ProviderGemini Provider = "gemini"`. -/
def ProviderGemini : Provider := "gemini"

/-- `ProviderMistral Provider = "mistral"`. -/
def ProviderMistral : Provider := "mistral"

/-- `ProviderTestMock Provider = "testing"`. -/
def ProviderTestMock : Provider := "testing"

/-- `MistralService` from the embedding package.  Its `client` field is an
`*http.Client`; the transport is supplied per call as an oracle instead. -/
structure MistralService where
  apiKey : String
deriving DecidableEq

/-- `NewMistralService`: reads `MISTRAL_API_KEY` from the environment and
returns the service.  `env` models `os.Getenv`, which yields `""` for an
unset variable.  Note the constructor has no error return at all. -/
def NewMistralService (env : String → String) : MistralService :=
  { apiKey := env "MISTRAL_API_KEY" }

/-- The JSON body marshalled by `MistralService.GetEmbeddings`:
`json.Marshal(map{"model": "mistral-embed", "input": []string{text}})`;
Go marshals map keys in sorted order ("input" before "model"). -/
def mistralEmbedRequestBody (text : String) : String :=
  "\x7b\"input\":[\"" ++ goJsonEscape text ++ "\"],\"model\":\"mistral-embed\"\x7d"

/-- The HTTP request `MistralService.GetEmbeddings` builds:
POST to the embeddings endpoint with content-type and bearer-token headers. -/
def mistralEmbedRequest (s : MistralService) (text : String) : HttpRequest :=
  { method := "POST"
    url := "https://api.mistral.ai/v1/embeddings"
    headers := [("Content-Type", "application/json"),
                ("Authorization", "Bearer " ++ s.apiKey)]
    body := mistralEmbedRequestBody text }

/-- The response classification of `MistralService.GetEmbeddings` after
`client.Do`: transport failure, non-200 status, JSON decode failure
(`decodeEmbed` models `json.Decoder.Decode` into the
`Data []struct\x7b Embedding []float32 \x7d` shape), empty `Data`,
then `Data[0].Embedding`. -/
def mistralEmbedResult (r : Except String HttpResponse)
    (decodeEmbed : String → Except String (List (List Float))) :
    Except String (List Float) :=
  match r with
  | .error e => .error ("failed to send request: " ++ e)
  | .ok resp =>
    if resp.statusCode ≠ 200 then
      .error ("mistral API error: " ++ resp.status ++ " - " ++ resp.body)
    else
      match decodeEmbed resp.body with
      | .error e => .error ("failed to decode response: " ++ e)
      | .ok [] => .error "no embeddings found in response"
      | .ok (emb :: _) => .ok emb

/-- `MistralService.GetEmbeddings`: marshals the request (which cannot fail
for this payload), sends it through the transport oracle `doReq`, and
classifies the outcome.  The second component is the list of requests
actually handed to the transport (exactly one — the request is sent
unconditionally once built).  The `embeddingType` parameter is accepted
and, as in the source, never used. -/
def MistralService.GetEmbeddings (s : MistralService) (text : String)
    (embeddingType : EmbeddingType)
    (doReq : HttpRequest → Except String HttpResponse)
    (decodeEmbed : String → Except String (List (List Float))) :
    Except String (List Float) × List HttpRequest :=
  let req := mistralEmbedRequest s text
  (mistralEmbedResult (doReq req) decodeEmbed, [req])

/-- `MockService` from the embedding package (no fields, no HTTP client). -/
structure MockService where
deriving DecidableEq

/-- `NewMockService`. -/
def NewMockService : MockService := {}

/-- The 768-dimension mock vector: `float32(i) / 1000.0` for `i < 768`. -/
def mockEmbedding : List Float :=
  (List.range 768).map (fun i => Float.ofNat i / 1000.0)

/-- `MockService.GetEmbeddings`: returns `(nil, nil)` for empty text and the
768-dimension mock vector otherwise.  The trace of issued HTTP requests is
part of the result and is always empty: the mock performs no I/O. -/
def MockService.GetEmbeddings (_ : MockService) (text : String)
    (embeddingType : EmbeddingType) :
    Except String (List Float) × List HttpRequest :=
  if text = "" then (.ok [], [])
  else (.ok mockEmbedding, [])

/-- The embedding service implementations reachable from the factory.
The gemini variant wraps an external `genai` client; only the key it was
built with is recorded (its network behaviour is outside this development
and it is never selected by the ingestion pipeline, which fixes the
provider to mistral). -/
inductive EmbeddingService
| geminiService (apiKey : String)
| mistralService (svc : MistralService)
| mockService
deriving DecidableEq

/-- Interface dispatch for `Service.GetEmbeddings`.  The gemini arm is not
modelled (external `genai` SDK) and is unreachable from `IngestFile`. -/
def EmbeddingService.GetEmbeddings : EmbeddingService → String → EmbeddingType →
    (HttpRequest → Except String HttpResponse) →
    (String → Except String (List (List Float))) →
    Except String (List Float) × List HttpRequest
  | .mistralService svc, text, et, doReq, dec => svc.GetEmbeddings text et doReq dec
  | .mockService, text, et, _, _ => MockService.GetEmbeddings {} text et
  | .geminiService _, _, _, _, _ => (.error "gemini service not modelled", [])

/-- `embedding.New`: the provider factory.  The mistral and mock branches
cannot fail; an unknown provider yields the explicit error. -/
def New (provider : Provider) (env : String → String) :
    Except String EmbeddingService :=
  if provider = ProviderGemini then .ok (.geminiService (env "GEMINI_API_KEY"))
  else if provider = ProviderMistral then .ok (.mistralService (NewMistralService env))
  else if provider = ProviderTestMock then .ok .mockService
  else .error ("unknown embedding provider: " ++ provider)

end embedding

namespace llm

/-- `type Provider string` from the llm package. -/
abbrev Provider := String

/-- `ProviderMistral Provider = "mistral"` (llm package). -/
def ProviderMistral : Provider := "mistral"

/-- `MistralLlmService` from the llm package.  The `HTTPClient` field is
an `*http.Client`; the transport is supplied per call as an oracle. -/
structure MistralLlmService where
  apiKey : String
  chatModel : String
  multimodalModel : String
  APIBaseURL : String
deriving DecidableEq

/-- `NewMistralLlmService`: fails at construction time when
`MISTRAL_API_KEY` is absent from the environment (`os.Getenv` yields `""`
for an unset variable). -/
def NewMistralLlmService (env : String → String) :
    Except String MistralLlmService :=
  let apiKey := env "MISTRAL_API_KEY"
  if apiKey = "" then .error "MISTRAL_API_KEY environment variable not set"
  else .ok { apiKey := apiKey
             chatModel := "mistral-small-latest"
             multimodalModel := "mistral-medium-latest"
             APIBaseURL := "https://api.mistral.ai/v1" }

/-- `llm.NewLlmService`: the provider factory; only mistral is known. -/
def NewLlmService (provider : Provider) (env : String → String) :
    Except String MistralLlmService :=
  if provider = ProviderMistral then NewMistralLlmService env
  else .error ("unknown LLM provider: " ++ provider)

/-- One `\x7b"role": ..., "content": ...\x7d` message of the chat payload. -/
structure ChatMessage where
  role : String
  content : String
deriving DecidableEq

/-- The request payload `GenerateText` marshals and POSTs to
`APIBaseURL + "/chat/completions"`. -/
structure ChatRequest where
  model : String
  messages : List ChatMessage
  temperature : Float
  maxTokens : Nat

/-- The request payload built by `GenerateText`: one user message carrying
the prompt, temperature 0.7, max_tokens 500. -/
def generateTextRequest (s : MistralLlmService) (prompt : String) : ChatRequest :=
  { model := s.chatModel
    messages := [{ role := "user", content := prompt }]
    temperature := 0.7
    maxTokens := 500 }

/-- One element of `Choices` as decoded by the Go code: only
`Message.Content` is read. -/
structure ChatChoice where
  content : String
deriving DecidableEq

/-- Response classification of `GenerateText` after `HTTPClient.Do`:
transport failure, non-200 status (message carries status line and raw
body), JSON decode failure, then the zero-choices / empty-content check
`len(Choices) == 0 || Choices[0].Message.Content == ""`. -/
def generateTextResult (r : Except String HttpResponse)
    (decodeChat : String → Except String (List ChatChoice)) :
    Except String String :=
  match r with
  | .error e => .error ("failed to send request to Mistral API: " ++ e)
  | .ok resp =>
    if resp.statusCode ≠ 200 then
      .error ("mistral API error: " ++ resp.status ++ " - " ++ resp.body)
    else
      match decodeChat resp.body with
      | .error e => .error ("failed to decode mistral response: " ++ e)
      | .ok [] => .error "no content found in mistral response"
      | .ok (c :: _) =>
        if c.content = "" then .error "no content found in mistral response"
        else .ok c.content

/-- `MistralLlmService.GenerateText`: builds the chat payload (marshalling
and request creation cannot fail for this payload and URL), sends it once
through the transport oracle, and classifies the response.  The second
component is the list of requests handed to the transport. -/
def MistralLlmService.GenerateText (s : MistralLlmService) (prompt : String)
    (doReq : ChatRequest → Except String HttpResponse)
    (decodeChat : String → Except String (List ChatChoice)) :
    Except String String × List ChatRequest :=
  let req := generateTextRequest s prompt
  (generateTextResult (doReq req) decodeChat, [req])

/-- One element of the multimodal `content` array: either a
`\x7b"type": "text", "text": ...\x7d` part or a
`\x7b"type": "image_url", "image_url": \x7b"url": ...\x7d\x7d` part. -/
inductive MMPart
| text (text : String)
| image_url (url : String)
deriving DecidableEq

/-- The `"type"` discriminator string the Go code writes for a part. -/
def MMPart.partType : MMPart → String
  | .text _ => "text"
  | .image_url _ => "image_url"

/-- One message of the multimodal payload: a role and a content array. -/
structure MMMessage where
  role : String
  content : List MMPart
deriving DecidableEq

/-- The multimodal request payload `ExtractTextFromImage` marshals. -/
structure ExtractRequest where
  model : String
  messages : List MMMessage
  temperature : Float
  maxTokens : Nat

/-- The payload built by `ExtractTextFromImage` once the image is known to
be non-empty: a single user message whose content array holds one text
part (the prompt) and one image_url part (the data URI), temperature 0.2,
max_tokens 300. -/
def extractRequest (s : MistralLlmService) (prompt : String)
    (imageURL : String) : ExtractRequest :=
  { model := s.multimodalModel
    messages := [{ role := "user"
                   content := [.text prompt, .image_url imageURL] }]
    temperature := 0.2
    maxTokens := 300 }

/-- Response classification of `ExtractTextFromImage` after
`HTTPClient.Do` (multimodal variants of the same four outcomes). -/
def extractResult (r : Except String HttpResponse)
    (decodeChat : String → Except String (List ChatChoice)) :
    Except String String :=
  match r with
  | .error e => .error ("failed to send multimodal request to Mistral API: " ++ e)
  | .ok resp =>
    if resp.statusCode ≠ 200 then
      .error ("mistral API error (multimodal): " ++ resp.status ++ " - " ++ resp.body)
    else
      match decodeChat resp.body with
      | .error e => .error ("failed to decode mistral multimodal response: " ++ e)
      | .ok [] => .error "no content found in mistral multimodal response"
      | .ok (c :: _) =>
        if c.content = "" then .error "no content found in mistral multimodal response"
        else .ok c.content

/-- `MistralLlmService.ExtractTextFromImage`: fails first on empty image
bytes (before any request exists); otherwise defaults an empty MIME type
to "image/jpeg", base64-encodes the image into a
`data:<mime>;base64,<...>` URI, builds the multimodal payload, sends it
once through the transport oracle, and classifies the response.  The
second component is the list of requests handed to the transport: empty
exactly when the empty-image check fires. -/
def MistralLlmService.ExtractTextFromImage (s : MistralLlmService)
    (prompt : String) (image : List Nat) (mimeType : String)
    (doReq : ExtractRequest → Except String HttpResponse)
    (decodeChat : String → Except String (List ChatChoice)) :
    Except String String × List ExtractRequest :=
  if image = [] then (.error "image data is empty", [])
  else
    let mt := if mimeType = "" then "image/jpeg" else mimeType
    let imageURL := "data:" ++ mt ++ ";base64," ++ base64Encode image
    let req := extractRequest s prompt imageURL
    (extractResult (doReq req) decodeChat, [req])

end llm

namespace ingest

/-- Observable side effects of one `IngestFile` run, in order: a call to
the embedding service, a `conn.Execute` of the node-creating statement, a
call to the LLM extraction, and the `fmt.Printf` of a failed
`CREATE TABLE` (source prints the error and continues). -/
inductive Event
| embedCall (content : String)
| storeWrite (content : String)
| extractCall (content : String)
| schemaErrorPrinted (msg : String)
deriving DecidableEq

/-- The `Document` table of the KuzuDB store: rows of
`(content STRING, embedding FLOAT[768])` with `PRIMARY KEY (content)`,
in insertion order. -/
abbrev Store := List (String × List Float)

/-- Whether the table already holds a row with the given primary key. -/
def storeHasKey (st : Store) (k : String) : Bool :=
  st.any (fun p => p.1 == k)

/-- Executing the prepared statement
`CREATE (d:Document \x7bcontent: $content, embedding: $embedding\x7d)` on
the KuzuDB connection.  Cypher `CREATE` is an insert, and KuzuDB enforces
the declared primary key: inserting a row whose `content` already exists
violates the uniqueness constraint and the execution returns a runtime
error instead of overwriting (modelled from KuzuDB's documented
"Found duplicated primary key value" behaviour; the store itself is a
third-party library, not part of this repository). -/
def kuzuCreateNode (st : Store) (content : String) (embedding : List Float) :
    Except String Store :=
  if storeHasKey st content then
    .error ("Found duplicated primary key value " ++ content)
  else .ok (st ++ [(content, embedding)])

/-- The extraction prompt `IngestFile` formats for a chunk. -/
def extractPrompt (content : String) : String :=
  "Extract entities and relationships from the following text:\n\n" ++ content

/-- The per-chunk operations of the loop body, as oracles: the embedding
service call (already specialised to `RETRIEVAL_DOCUMENT`), the
`conn.Prepare` of the constant statement, and the LLM text generation. -/
structure ChunkOracles where
  getEmbeddings : String → Except String (List Float)
  prepare : Except String Unit
  generateText : String → Except String String

/-- The `for _, chunk := range chunks` loop of `IngestFile`: per chunk, in
order — get the embedding, prepare the statement, execute the node
insert, extract graph info — wrapping each failure and returning it
immediately.  The second component records the calls actually made. -/
def ingestChunks (o : ChunkOracles) :
    List String → Store → Except String Store × List Event
  | [], st => (.ok st, [])
  | c :: cs, st =>
    match o.getEmbeddings c with
    | .error e => (.error ("failed to get embedding: " ++ e), [.embedCall c])
    | .ok emb =>
      match o.prepare with
      | .error e => (.error ("failed to prepare query: " ++ e), [.embedCall c])
      | .ok _ =>
        match kuzuCreateNode st c emb with
        | .error e =>
          (.error ("failed to execute query: " ++ e), [.embedCall c, .storeWrite c])
        | .ok st' =>
          match o.generateText (extractPrompt c) with
          | .error e =>
            (.error ("failed to extract graph info: " ++ e),
             [.embedCall c, .storeWrite c, .extractCall c])
          | .ok _ =>
            let r := ingestChunks o cs st'
            (r.1, .embedCall c :: .storeWrite c :: .extractCall c :: r.2)

/-- The external world one `IngestFile` call interacts with: the process
environment, the document loader, the splitter, the KuzuDB
database/connection/statement machinery, and the two HTTP backends. -/
structure IngestWorld where
  env : String → String
  load : Except String (List String)
  splitDocs : List String → Except String (List String)
  newDatabase : Except String Unit
  newConnection : Except String Unit
  createSchema : Except String Unit
  prepare : Except String Unit
  embedNet : HttpRequest → Except String HttpResponse
  embedDecode : String → Except String (List (List Float))
  chatNet : llm.ChatRequest → Except String HttpResponse
  chatDecode : String → Except String (List llm.ChatChoice)

/-- The loop-body oracles `IngestFile` passes to the per-chunk loop: the
constructed embedding service specialised to `RETRIEVAL_DOCUMENT`, the
statement preparation, and the constructed LLM service. -/
def chunkOraclesOf (w : IngestWorld) (embSvc : embedding.EmbeddingService)
    (llmSvc : llm.MistralLlmService) : ChunkOracles :=
  { getEmbeddings := fun text =>
      (embSvc.GetEmbeddings text embedding.EmbeddingTypeRetrievalDocument
        w.embedNet w.embedDecode).1
    prepare := w.prepare
    generateText := fun prompt =>
      (llmSvc.GenerateText prompt w.chatNet w.chatDecode).1 }

/-- `IngestFile`, stage by stage: construct the embedding service
(provider fixed to mistral), construct the LLM service, load the
document, split it into chunks, open the database and connection, run
`CREATE TABLE Document (content STRING, embedding FLOAT[768],
PRIMARY KEY (content))` — whose error is only printed, execution
continues — then run the per-chunk loop on the chunk contents.  Every
other stage failure is wrapped and returned immediately.  The result is
the final store (threaded explicitly) and the event trace. -/
def IngestFile (w : IngestWorld) (st : Store) :
    Except String Store × List Event :=
  match embedding.New embedding.ProviderMistral w.env with
  | .error e => (.error ("failed to create embedding service: " ++ e), [])
  | .ok embSvc =>
    match llm.NewLlmService llm.ProviderMistral w.env with
    | .error e => (.error ("failed to create llm service: " ++ e), [])
    | .ok llmSvc =>
      match w.load with
      | .error e => (.error ("failed to load document: " ++ e), [])
      | .ok docs =>
        match w.splitDocs docs with
        | .error e => (.error ("failed to split document: " ++ e), [])
        | .ok chunks =>
          match w.newDatabase with
          | .error e => (.error ("failed to create database: " ++ e), [])
          | .ok _ =>
            match w.newConnection with
            | .error e => (.error ("failed to create connection: " ++ e), [])
            | .ok _ =>
              let schemaEvents : List Event :=
                match w.createSchema with
                | .error e => [.schemaErrorPrinted ("Error creating table: " ++ e)]
                | .ok _ => []
              let r := ingestChunks (chunkOraclesOf w embSvc llmSvc) chunks st
              (r.1, schemaEvents ++ r.2)

end ingest

/-! ## Shared helper lemmas -/

theorem string_data_append (s t : String) : (s ++ t).data = s.data ++ t.data := rfl

theorem string_head_append (s t : String) (c : Char) (h : s.data.head? = some c) :
    (s ++ t).data.head? = some c := by
  rw [string_data_append]
  cases hs : s.data with
  | nil => rw [hs] at h; simp at h
  | cons a l =>
    rw [hs] at h
    simp only [List.head?_cons, Option.some.injEq] at h
    simp [h]

theorem string_ne_of_head_ne (a b : String) (c₁ c₂ : Char)
    (ha : a.data.head? = some c₁) (hb : b.data.head? = some c₂)
    (hne : c₁ ≠ c₂) : a ≠ b := by
  intro h
  subst h
  rw [ha] at hb
  exact hne (Option.some.inj hb)

theorem storeHasKey_append (st l : ingest.Store) (k : String) :
    ingest.storeHasKey (st ++ l) k =
      (ingest.storeHasKey st k || ingest.storeHasKey l k) := by
  simp [ingest.storeHasKey, List.any_append]

theorem storeHasKey_iff (st : ingest.Store) (k : String) :
    ingest.storeHasKey st k = true ↔ k ∈ st.map Prod.fst := by
  simp [ingest.storeHasKey, List.any_eq_true, List.mem_map]

theorem kuzuCreateNode_ok (st st' : ingest.Store) (c : String) (emb : List Float)
    (h : ingest.kuzuCreateNode st c emb = .ok st') :
    ingest.storeHasKey st c = false ∧ st' = st ++ [(c, emb)] := by
  by_cases hk : ingest.storeHasKey st c = true
  · simp [ingest.kuzuCreateNode, hk] at h
  · simp at hk
    simp [ingest.kuzuCreateNode, hk] at h
    exact ⟨hk, h.symm⟩

theorem ingestChunks_store_mono (o : ingest.ChunkOracles) (cs : List String) :
    ∀ st st' : ingest.Store, (ingest.ingestChunks o cs st).1 = .ok st' →
      ∀ k, ingest.storeHasKey st k = true → ingest.storeHasKey st' k = true := by
  induction cs with
  | nil =>
    intro st st' h k hk
    simp [ingest.ingestChunks] at h
    exact h ▸ hk
  | cons c cs ih =>
    intro st st' h k hk
    cases h1 : o.getEmbeddings c with
    | error e => simp [ingest.ingestChunks, h1] at h
    | ok emb =>
      cases h2 : o.prepare with
      | error e => simp [ingest.ingestChunks, h1, h2] at h
      | ok u =>
        cases h3 : ingest.kuzuCreateNode st c emb with
        | error e => simp [ingest.ingestChunks, h1, h2, h3] at h
        | ok st1 =>
          cases h4 : o.generateText (ingest.extractPrompt c) with
          | error e => simp [ingest.ingestChunks, h1, h2, h3, h4] at h
          | ok g =>
            simp only [ingest.ingestChunks, h1, h2, h3, h4] at h
            obtain ⟨hk0, hst1⟩ := kuzuCreateNode_ok st st1 c emb h3
            refine ih st1 st' h k ?_
            rw [hst1, storeHasKey_append, hk]
            rfl

theorem ingestChunks_keys_nodup (o : ingest.ChunkOracles) (cs : List String) :
    ∀ st st' : ingest.Store, (ingest.ingestChunks o cs st).1 = .ok st' →
      (st.map Prod.fst).Nodup → (st'.map Prod.fst).Nodup := by
  induction cs with
  | nil =>
    intro st st' h hn
    simp [ingest.ingestChunks] at h
    exact h ▸ hn
  | cons c cs ih =>
    intro st st' h hn
    cases h1 : o.getEmbeddings c with
    | error e => simp [ingest.ingestChunks, h1] at h
    | ok emb =>
      cases h2 : o.prepare with
      | error e => simp [ingest.ingestChunks, h1, h2] at h
      | ok u =>
        cases h3 : ingest.kuzuCreateNode st c emb with
        | error e => simp [ingest.ingestChunks, h1, h2, h3] at h
        | ok st1 =>
          cases h4 : o.generateText (ingest.extractPrompt c) with
          | error e => simp [ingest.ingestChunks, h1, h2, h3, h4] at h
          | ok g =>
            simp only [ingest.ingestChunks, h1, h2, h3, h4] at h
            obtain ⟨hk0, hst1⟩ := kuzuCreateNode_ok st st1 c emb h3
            refine ih st1 st' h ?_
            have hcnot : c ∉ st.map Prod.fst := by
              intro hc
              rw [← storeHasKey_iff] at hc
              rw [hc] at hk0
              cases hk0
            rw [hst1]
            simp [List.map_append, List.nodup_append, hn, hcnot]

theorem ingestChunks_ok_all (o : ingest.ChunkOracles) (cs : List String) :
    ∀ st st' : ingest.Store, (ingest.ingestChunks o cs st).1 = .ok st' →
      ∀ c ∈ cs, (∃ emb, o.getEmbeddings c = .ok emb) ∧ o.prepare = .ok () ∧
        ∃ g, o.generateText (ingest.extractPrompt c) = .ok g := by
  induction cs with
  | nil => intro st st' _ c hc; cases hc
  | cons c0 cs ih =>
    intro st st' h c hc
    cases h1 : o.getEmbeddings c0 with
    | error e => simp [ingest.ingestChunks, h1] at h
    | ok emb =>
      cases h2 : o.prepare with
      | error e => simp [ingest.ingestChunks, h1, h2] at h
      | ok u =>
        cases h3 : ingest.kuzuCreateNode st c0 emb with
        | error e => simp [ingest.ingestChunks, h1, h2, h3] at h
        | ok st1 =>
          cases h4 : o.generateText (ingest.extractPrompt c0) with
          | error e => simp [ingest.ingestChunks, h1, h2, h3, h4] at h
          | ok g =>
            simp only [ingest.ingestChunks, h1, h2, h3, h4] at h
            rcases List.mem_cons.mp hc with hceq | hmem
            · subst hceq
              exact ⟨⟨emb, h1⟩, rfl, g, h4⟩
            · have hrest := ih st1 st' h c hmem
              exact ⟨hrest.1, rfl, hrest.2.2⟩

theorem ingestChunks_append_ok (o : ingest.ChunkOracles) (l₁ l₂ : List String) :
    ∀ st st₁ : ingest.Store, ∀ tr₁ : List ingest.Event,
      ingest.ingestChunks o l₁ st = (.ok st₁, tr₁) →
      ingest.ingestChunks o (l₁ ++ l₂) st =
        ((ingest.ingestChunks o l₂ st₁).1,
         tr₁ ++ (ingest.ingestChunks o l₂ st₁).2) := by
  induction l₁ with
  | nil =>
    intro st st₁ tr₁ h
    simp [ingest.ingestChunks] at h
    obtain ⟨h1, h2⟩ := h
    subst h1
    subst h2
    simp
  | cons c cs ih =>
    intro st st₁ tr₁ h
    cases h1 : o.getEmbeddings c with
    | error e => simp [ingest.ingestChunks, h1] at h
    | ok emb =>
      cases h2 : o.prepare with
      | error e => simp [ingest.ingestChunks, h1, h2] at h
      | ok u =>
        cases h3 : ingest.kuzuCreateNode st c emb with
        | error e => simp [ingest.ingestChunks, h1, h2, h3] at h
        | ok st1 =>
          cases h4 : o.generateText (ingest.extractPrompt c) with
          | error e => simp [ingest.ingestChunks, h1, h2, h3, h4] at h
          | ok g =>
            rcases hrec : ingest.ingestChunks o cs st1 with ⟨res, tr⟩
            simp only [ingest.ingestChunks, h1, h2, h3, h4, hrec] at h
            injection h with hres htr
            have hstep := ih st1 st₁ tr (by rw [hrec, hres])
            subst htr
            simp only [List.cons_append, ingest.ingestChunks, h1, h2, h3, h4, hrec, hstep]
            simp only [List.append_eq, hstep]

theorem embedding_New_mistral (env : String → String) :
    embedding.New embedding.ProviderMistral env =
      .ok (.mistralService (embedding.NewMistralService env)) := rfl

theorem NewLlmService_mistral (env : String → String) :
    llm.NewLlmService llm.ProviderMistral env = llm.NewMistralLlmService env := rfl

theorem IngestFile_reduce (w : ingest.IngestWorld) (st : ingest.Store)
    (svc : llm.MistralLlmService) (docs chunks : List String)
    (hllm : llm.NewMistralLlmService w.env = .ok svc)
    (hload : w.load = .ok docs) (hsplit : w.splitDocs docs = .ok chunks)
    (hdb : w.newDatabase = .ok ()) (hconn : w.newConnection = .ok ()) :
    ingest.IngestFile w st =
      ((ingest.ingestChunks
          (ingest.chunkOraclesOf w
            (.mistralService (embedding.NewMistralService w.env)) svc)
          chunks st).1,
       (match w.createSchema with
        | .error e => [ingest.Event.schemaErrorPrinted ("Error creating table: " ++ e)]
        | .ok _ => ([] : List ingest.Event)) ++
       (ingest.ingestChunks
          (ingest.chunkOraclesOf w
            (.mistralService (embedding.NewMistralService w.env)) svc)
          chunks st).2) := by
  simp only [ingest.IngestFile, embedding_New_mistral, NewLlmService_mistral,
    hllm, hload, hsplit, hdb, hconn]

theorem ingestChunks_rerun_dup (o : ingest.ChunkOracles) (c : String)
    (cs : List String) (st st' : ingest.Store)
    (h : (ingest.ingestChunks o (c :: cs) st).1 = .ok st') :
    (ingest.ingestChunks o (c :: cs) st').1 =
      .error ("failed to execute query: " ++
        ("Found duplicated primary key value " ++ c)) := by
  cases h1 : o.getEmbeddings c with
  | error e => simp [ingest.ingestChunks, h1] at h
  | ok emb =>
    cases h2 : o.prepare with
    | error e => simp [ingest.ingestChunks, h1, h2] at h
    | ok u =>
      cases h3 : ingest.kuzuCreateNode st c emb with
      | error e => simp [ingest.ingestChunks, h1, h2, h3] at h
      | ok st1 =>
        cases h4 : o.generateText (ingest.extractPrompt c) with
        | error e => simp [ingest.ingestChunks, h1, h2, h3, h4] at h
        | ok g =>
          simp only [ingest.ingestChunks, h1, h2, h3, h4] at h
          obtain ⟨hk0, hst1⟩ := kuzuCreateNode_ok st st1 c emb h3
          have hkey1 : ingest.storeHasKey st1 c = true := by
            rw [hst1, storeHasKey_append]
            simp [ingest.storeHasKey]
          have hkey : ingest.storeHasKey st' c = true :=
            ingestChunks_store_mono o cs st1 st' h c hkey1
          have hdup : ingest.kuzuCreateNode st' c emb =
              .error ("Found duplicated primary key value " ++ c) := by
            simp [ingest.kuzuCreateNode, hkey]
          simp [ingest.ingestChunks, h1, h2, hdup]

/-! ## Concrete worlds and oracles used by witnesses and counterexamples -/

/-- A world where every stage succeeds: the environment supplies an API
key, loading yields one document, splitting yields the single chunk
"hello", the store machinery works, the embedding backend answers 200
with one (empty) vector, and the chat backend answers 200 with one
non-empty choice. -/
def happyWorld : ingest.IngestWorld :=
  { env := fun _ => "k"
    load := .ok ["doc"]
    splitDocs := fun _ => .ok ["hello"]
    newDatabase := .ok ()
    newConnection := .ok ()
    createSchema := .ok ()
    prepare := .ok ()
    embedNet := fun _ => .ok { statusCode := 200, status := "200 OK", body := "resp" }
    embedDecode := fun _ => .ok [[]]
    chatNet := fun _ => .ok { statusCode := 200, status := "200 OK", body := "resp" }
    chatDecode := fun _ => .ok [{ content := "entities" }] }

/-- `happyWorld` with a failing document load. -/
def loadFailWorld : ingest.IngestWorld :=
  { happyWorld with load := .error "no such file" }

/-- `happyWorld` with a failing `CREATE TABLE`. -/
def schemaFailWorld : ingest.IngestWorld :=
  { happyWorld with createSchema := .error "disk full" }

/-- Chunk oracles whose embedding call always fails. -/
def embedFailOracles : ingest.ChunkOracles :=
  { getEmbeddings := fun _ => .error "boom"
    prepare := .ok ()
    generateText := fun _ => .ok "graph info" }

/-! ## C1 -/

/-- C1 (counterexample): ingesting the same single-chunk document twice is
not idempotent-with-overwrite.  The first `IngestFile` run persists the
key "hello"; the second run, over the store the first one produced, fails
with a wrapped duplicate-primary-key execute error instead of
overwriting. -/
theorem ingest_twice_not_idempotent :
    (ingest.IngestFile happyWorld []).1 = .ok [("hello", [])]
    ∧ (ingest.IngestFile happyWorld [("hello", [])]).1 =
        .error "failed to execute query: Found duplicated primary key value hello" :=
  ⟨rfl, rfl⟩

/-- C1 (amended): content is the primary key of the store, so a successful
run never creates duplicate keys; but re-ingestion is not an overwrite:
whenever an `IngestFile` run over chunks `c :: cs` succeeds, running
`IngestFile` again on the resulting store aborts on the first chunk with
the wrapped duplicated-primary-key execute error. -/
theorem ingest_rerun_fails_duplicate_key (w : ingest.IngestWorld)
    (st st' : ingest.Store) (docs : List String) (c : String) (cs : List String)
    (hload : w.load = .ok docs) (hsplit : w.splitDocs docs = .ok (c :: cs))
    (hok : (ingest.IngestFile w st).1 = .ok st') :
    (ingest.IngestFile w st').1 =
      .error ("failed to execute query: " ++
        ("Found duplicated primary key value " ++ c))
    ∧ ((st.map Prod.fst).Nodup → (st'.map Prod.fst).Nodup) := by
  cases hllm : llm.NewMistralLlmService w.env with
  | error e =>
    simp [ingest.IngestFile, embedding_New_mistral, NewLlmService_mistral, hllm] at hok
  | ok svc =>
    cases hdb : w.newDatabase with
    | error e =>
      simp [ingest.IngestFile, embedding_New_mistral, NewLlmService_mistral,
        hllm, hload, hsplit, hdb] at hok
    | ok u =>
      cases hconn : w.newConnection with
      | error e =>
        simp [ingest.IngestFile, embedding_New_mistral, NewLlmService_mistral,
          hllm, hload, hsplit, hdb, hconn] at hok
      | ok u2 =>
        have hred := IngestFile_reduce w st svc docs (c :: cs) hllm hload hsplit hdb hconn
        have hred' := IngestFile_reduce w st' svc docs (c :: cs) hllm hload hsplit hdb hconn
        have hloop : (ingest.ingestChunks
            (ingest.chunkOraclesOf w
              (.mistralService (embedding.NewMistralService w.env)) svc)
            (c :: cs) st).1 = .ok st' := by
          rw [hred] at hok
          exact hok
        constructor
        · rw [hred']
          exact ingestChunks_rerun_dup _ c cs st st' hloop
        · intro hn
          exact ingestChunks_keys_nodup _ (c :: cs) st st' hloop hn

/-- C1 (witness): the amended theorem applied to the concrete happy-path
world: after the successful run on the empty store, the second run fails
with the duplicated-key error, and key-uniqueness is preserved. -/
theorem ingest_rerun_fails_duplicate_key_witness :
    (ingest.IngestFile happyWorld [("hello", [])]).1 =
      .error ("failed to execute query: " ++
        ("Found duplicated primary key value " ++ "hello"))
    ∧ ((([] : ingest.Store).map Prod.fst).Nodup →
       (([("hello", [])] : ingest.Store).map Prod.fst).Nodup) :=
  ingest_rerun_fails_duplicate_key happyWorld [] [("hello", [])] ["doc"]
    "hello" [] rfl rfl rfl

/-! ## C2 -/

/-- C2 (counterexample): the schema-creation stage does not abort the
ingestion.  In a world where `CREATE TABLE` fails with "disk full" and
everything else succeeds, `IngestFile` still returns success and persists
the chunk; the failure is only printed (first trace event). -/
theorem schema_error_does_not_abort :
    schemaFailWorld.createSchema = .error "disk full"
    ∧ (ingest.IngestFile schemaFailWorld []).1 = .ok [("hello", [])]
    ∧ (ingest.IngestFile schemaFailWorld []).2 =
        [.schemaErrorPrinted "Error creating table: disk full",
         .embedCall "hello", .storeWrite "hello", .extractCall "hello"] :=
  ⟨rfl, rfl, rfl⟩

/-- C2 (amended): every pipeline-stage error except schema creation aborts
the `IngestFile` call and is returned wrapped to the caller — LLM-service
construction (the embedding-service constructor cannot fail at all),
document load, splitting, database and connection setup, and, inside the
loop, embedding, statement preparation, store write and extraction (a
successful loop implies every per-chunk call succeeded).  A
schema-creation error, by contrast, is printed into the event trace and
the run continues with an unchanged result. -/
theorem pipeline_errors_abort_except_schema (w : ingest.IngestWorld)
    (st : ingest.Store) :
    (∀ e, llm.NewMistralLlmService w.env = .error e →
       ingest.IngestFile w st = (.error ("failed to create llm service: " ++ e), []))
    ∧ (∀ svc e, llm.NewMistralLlmService w.env = .ok svc → w.load = .error e →
       ingest.IngestFile w st = (.error ("failed to load document: " ++ e), []))
    ∧ (∀ svc docs e, llm.NewMistralLlmService w.env = .ok svc →
       w.load = .ok docs → w.splitDocs docs = .error e →
       ingest.IngestFile w st = (.error ("failed to split document: " ++ e), []))
    ∧ (∀ svc docs chunks e, llm.NewMistralLlmService w.env = .ok svc →
       w.load = .ok docs → w.splitDocs docs = .ok chunks →
       w.newDatabase = .error e →
       ingest.IngestFile w st = (.error ("failed to create database: " ++ e), []))
    ∧ (∀ svc docs chunks e, llm.NewMistralLlmService w.env = .ok svc →
       w.load = .ok docs → w.splitDocs docs = .ok chunks →
       w.newDatabase = .ok () → w.newConnection = .error e →
       ingest.IngestFile w st = (.error ("failed to create connection: " ++ e), []))
    ∧ (∀ svc docs chunks e, llm.NewMistralLlmService w.env = .ok svc →
       w.load = .ok docs → w.splitDocs docs = .ok chunks →
       w.newDatabase = .ok () → w.newConnection = .ok () →
       w.createSchema = .error e →
       (ingest.IngestFile w st).1 =
         (ingest.IngestFile { w with createSchema := .ok () } st).1
       ∧ ingest.Event.schemaErrorPrinted ("Error creating table: " ++ e) ∈
           (ingest.IngestFile w st).2)
    ∧ (∀ (o : ingest.ChunkOracles) chunks st₀ st₁,
       (ingest.ingestChunks o chunks st₀).1 = .ok st₁ →
       ∀ c ∈ chunks, (∃ emb, o.getEmbeddings c = .ok emb) ∧
         o.prepare = .ok () ∧
         ∃ g, o.generateText (ingest.extractPrompt c) = .ok g)
    ∧ (∀ (o : ingest.ChunkOracles) c cs st₀ emb e,
       o.getEmbeddings c = .ok emb → o.prepare = .error e →
       ingest.ingestChunks o (c :: cs) st₀ =
         (.error ("failed to prepare query: " ++ e), [.embedCall c]))
    ∧ (∀ (o : ingest.ChunkOracles) c cs st₀ emb e,
       o.getEmbeddings c = .ok emb → o.prepare = .ok () →
       ingest.kuzuCreateNode st₀ c emb = .error e →
       ingest.ingestChunks o (c :: cs) st₀ =
         (.error ("failed to execute query: " ++ e),
          [.embedCall c, .storeWrite c])) := by
  refine ⟨?_, ?_, ?_, ?_, ?_, ?_, ?_, ?_, ?_⟩
  · intro e h
    simp [ingest.IngestFile, embedding_New_mistral, NewLlmService_mistral, h]
  · intro svc e h1 h2
    simp [ingest.IngestFile, embedding_New_mistral, NewLlmService_mistral, h1, h2]
  · intro svc docs e h1 h2 h3
    simp [ingest.IngestFile, embedding_New_mistral, NewLlmService_mistral, h1, h2, h3]
  · intro svc docs chunks e h1 h2 h3 h4
    simp [ingest.IngestFile, embedding_New_mistral, NewLlmService_mistral,
      h1, h2, h3, h4]
  · intro svc docs chunks e h1 h2 h3 h4 h5
    simp [ingest.IngestFile, embedding_New_mistral, NewLlmService_mistral,
      h1, h2, h3, h4, h5]
  · intro svc docs chunks e h1 h2 h3 h4 h5 h6
    have hred := IngestFile_reduce w st svc docs chunks h1 h2 h3 h4 h5
    have hred2 := IngestFile_reduce { w with createSchema := .ok () } st svc docs chunks
      h1 h2 h3 h4 h5
    constructor
    · rw [hred, hred2]
      rfl
    · rw [hred, h6]
      exact List.mem_cons_self _ _
  · intro o chunks st₀ st₁ h c hc
    exact ingestChunks_ok_all o chunks st₀ st₁ h c hc
  · intro o c cs st₀ emb e h1 h2
    simp [ingest.ingestChunks, h1, h2]
  · intro o c cs st₀ emb e h1 h2 h3
    simp [ingest.ingestChunks, h1, h2, h3]

/-- C2 (witness): the amended theorem applied to a concrete world whose
document load fails: the run aborts with the wrapped load error. -/
theorem pipeline_errors_abort_except_schema_witness :
    ingest.IngestFile loadFailWorld [] =
      (.error ("failed to load document: " ++ "no such file"), []) :=
  (pipeline_errors_abort_except_schema loadFailWorld []).2.1
    { apiKey := "k", chatModel := "mistral-small-latest"
      multimodalModel := "mistral-medium-latest"
      APIBaseURL := "https://api.mistral.ai/v1" }
    "no such file" rfl rfl

/-! ## C3 -/

/-- C3: per-chunk fail-fast.  An embedding failure on a chunk aborts the
whole loop with the wrapped error and leaves only that chunk's embed call
in the trace; an extraction failure aborts with the wrapped error after
that chunk's write; and both facts hold at any position in the chunk list
(after an arbitrary successfully processed prefix), so no later chunk is
embedded, persisted, or extracted. -/
theorem chunk_failure_fail_fast (o : ingest.ChunkOracles) (c : String)
    (cs : List String) (st : ingest.Store) :
    (∀ e, o.getEmbeddings c = .error e →
       ingest.ingestChunks o (c :: cs) st =
         (.error ("failed to get embedding: " ++ e), [.embedCall c]))
    ∧ (∀ emb st' e, o.getEmbeddings c = .ok emb → o.prepare = .ok () →
       ingest.kuzuCreateNode st c emb = .ok st' →
       o.generateText (ingest.extractPrompt c) = .error e →
       ingest.ingestChunks o (c :: cs) st =
         (.error ("failed to extract graph info: " ++ e),
          [.embedCall c, .storeWrite c, .extractCall c]))
    ∧ (∀ pre st₁ tr₁ e, ingest.ingestChunks o pre st = (.ok st₁, tr₁) →
       o.getEmbeddings c = .error e →
       ingest.ingestChunks o (pre ++ c :: cs) st =
         (.error ("failed to get embedding: " ++ e), tr₁ ++ [.embedCall c]))
    ∧ (∀ pre st₁ tr₁ emb st₂ e, ingest.ingestChunks o pre st = (.ok st₁, tr₁) →
       o.getEmbeddings c = .ok emb → o.prepare = .ok () →
       ingest.kuzuCreateNode st₁ c emb = .ok st₂ →
       o.generateText (ingest.extractPrompt c) = .error e →
       ingest.ingestChunks o (pre ++ c :: cs) st =
         (.error ("failed to extract graph info: " ++ e),
          tr₁ ++ [.embedCall c, .storeWrite c, .extractCall c])) := by
  refine ⟨?_, ?_, ?_, ?_⟩
  · intro e h
    simp [ingest.ingestChunks, h]
  · intro emb st' e h1 h2 h3 h4
    simp [ingest.ingestChunks, h1, h2, h3, h4]
  · intro pre st₁ tr₁ e hpre h
    rw [ingestChunks_append_ok o pre (c :: cs) st st₁ tr₁ hpre]
    simp [ingest.ingestChunks, h]
  · intro pre st₁ tr₁ emb st₂ e hpre h1 h2 h3 h4
    rw [ingestChunks_append_ok o pre (c :: cs) st st₁ tr₁ hpre]
    simp [ingest.ingestChunks, h1, h2, h3, h4]

/-- C3 (witness): the fail-fast theorem applied to concrete oracles whose
embedding call fails on the first of two chunks: the loop stops with the
wrapped error and the second chunk is never touched. -/
theorem chunk_failure_fail_fast_witness :
    ingest.ingestChunks embedFailOracles ["a", "b"] [] =
      (.error ("failed to get embedding: " ++ "boom"), [.embedCall "a"]) :=
  (chunk_failure_fail_fast embedFailOracles "a" ["b"] []).1 "boom" rfl

/-! ## C4 -/

/-- C4 (counterexample): constructing the Mistral embedding service via the
factory with `MISTRAL_API_KEY` absent does not fail — the factory returns
the service (carrying an empty key) with no error, so the missing key can
only surface on the first call. -/
theorem embedding_ctor_missing_key_succeeds :
    embedding.New embedding.ProviderMistral (fun _ => "") =
      .ok (.mistralService { apiKey := "" }) := rfl

/-- C4 (amended): only the Mistral LLM service checks the API key at
construction time — with `MISTRAL_API_KEY` absent its constructor fails
with an explicit error; the Mistral embedding service performs no check
and its construction always succeeds, storing whatever (possibly empty)
key the environment supplies. -/
theorem api_key_checked_only_by_llm_ctor (env : String → String) :
    (env "MISTRAL_API_KEY" = "" →
       llm.NewMistralLlmService env =
         .error "MISTRAL_API_KEY environment variable not set")
    ∧ embedding.New embedding.ProviderMistral env =
        .ok (.mistralService { apiKey := env "MISTRAL_API_KEY" }) := by
  constructor
  · intro h
    simp [llm.NewMistralLlmService, h]
  · rfl

/-- C4 (witness): the amended theorem at the concrete empty environment. -/
theorem api_key_checked_only_by_llm_ctor_witness :
    llm.NewMistralLlmService (fun _ => "") =
      .error "MISTRAL_API_KEY environment variable not set"
    ∧ embedding.New embedding.ProviderMistral (fun _ => "") =
        .ok (.mistralService { apiKey := "" }) :=
  ⟨(api_key_checked_only_by_llm_ctor (fun _ => "")).1 rfl,
   (api_key_checked_only_by_llm_ctor (fun _ => "")).2⟩

/-! ## C5 -/

/-- C5: error classification of the Mistral embedding provider.  A non-200
response yields an error carrying the status line and the raw body (shown
both exactly and as a containment decomposition); a decode failure on a
200 response yields the wrapped decode error; a structurally valid 200
response with zero embeddings yields the empty-result error; and the
three message families are pairwise distinct, so the kinds are
distinguishable. -/
theorem embed_error_classification (s : embedding.MistralService)
    (text : String) (et : embedding.EmbeddingType)
    (doReq : HttpRequest → Except String HttpResponse)
    (dec : String → Except String (List (List Float)))
    (resp : HttpResponse)
    (hnet : doReq (embedding.mistralEmbedRequest s text) = .ok resp) :
    (resp.statusCode ≠ 200 →
       (s.GetEmbeddings text et doReq dec).1 =
         .error ("mistral API error: " ++ resp.status ++ " - " ++ resp.body))
    ∧ (resp.statusCode ≠ 200 →
       ∃ p q, (s.GetEmbeddings text et doReq dec).1 =
         .error (p ++ resp.status ++ q ++ resp.body))
    ∧ (∀ e, resp.statusCode = 200 → dec resp.body = .error e →
       (s.GetEmbeddings text et doReq dec).1 =
         .error ("failed to decode response: " ++ e))
    ∧ (resp.statusCode = 200 → dec resp.body = .ok [] →
       (s.GetEmbeddings text et doReq dec).1 =
         .error "no embeddings found in response")
    ∧ (∀ status body e,
        ("mistral API error: " ++ status ++ " - " ++ body ≠
           "failed to decode response: " ++ e)
        ∧ ("mistral API error: " ++ status ++ " - " ++ body ≠
           "no embeddings found in response")
        ∧ ("failed to decode response: " ++ e ≠
           "no embeddings found in response")) := by
  refine ⟨?_, ?_, ?_, ?_, ?_⟩
  · intro h
    simp [embedding.MistralService.GetEmbeddings, embedding.mistralEmbedResult,
      hnet, h]
  · intro h
    refine ⟨"mistral API error: ", " - ", ?_⟩
    simp [embedding.MistralService.GetEmbeddings, embedding.mistralEmbedResult,
      hnet, h]
  · intro e h1 h2
    simp [embedding.MistralService.GetEmbeddings, embedding.mistralEmbedResult,
      hnet, h1, h2]
  · intro h1 h2
    simp [embedding.MistralService.GetEmbeddings, embedding.mistralEmbedResult,
      hnet, h1, h2]
  · intro status body e
    refine ⟨?_, ?_, ?_⟩
    · exact string_ne_of_head_ne _ _ 'm' 'f'
        (string_head_append _ _ _ (string_head_append _ _ _
          (string_head_append _ _ _ rfl)))
        (string_head_append _ _ _ rfl)
        (by decide)
    · exact string_ne_of_head_ne _ _ 'm' 'n'
        (string_head_append _ _ _ (string_head_append _ _ _
          (string_head_append _ _ _ rfl)))
        rfl
        (by decide)
    · exact string_ne_of_head_ne _ _ 'f' 'n'
        (string_head_append _ _ _ rfl)
        rfl
        (by decide)

/-- A transport oracle answering every request with a 500 response. -/
def net500 : HttpRequest → Except String HttpResponse :=
  fun _ => .ok { statusCode := 500, status := "500 Internal Server Error"
                 body := "backend exploded" }

/-- A decoder that always fails (as on a truncated JSON body). -/
def decFail : String → Except String (List (List Float)) :=
  fun _ => .error "unexpected EOF"

/-- C5 (witness): the classification theorem at a concrete 500 response:
the returned error carries the status line and raw body. -/
theorem embed_error_classification_witness :
    (embedding.MistralService.GetEmbeddings { apiKey := "k" } "hi"
      embedding.EmbeddingTypeRetrievalDocument net500 decFail).1 =
      .error ("mistral API error: " ++ "500 Internal Server Error" ++ " - " ++
        "backend exploded") :=
  (embed_error_classification { apiKey := "k" } "hi"
    embedding.EmbeddingTypeRetrievalDocument net500 decFail
    { statusCode := 500, status := "500 Internal Server Error"
      body := "backend exploded" } rfl).1 (by decide)

/-! ## C6 -/

/-- C6: for every service, prompt, MIME type, transport and decoder,
`ExtractTextFromImage` on empty image bytes fails with the empty-input
error and the request trace is empty — the transport oracle is never
invoked. -/
theorem extract_empty_image_no_network (s : llm.MistralLlmService)
    (prompt mimeType : String)
    (doReq : llm.ExtractRequest → Except String HttpResponse)
    (dec : String → Except String (List llm.ChatChoice)) :
    s.ExtractTextFromImage prompt [] mimeType doReq dec =
      (.error "image data is empty", []) := rfl

/-! ## C7 -/

/-- C7: for every non-empty image and non-empty MIME type, the outbound
multimodal payload is sent exactly once and holds a single user message
whose content array has exactly one part of type "text" (carrying the
prompt) and exactly one part of type "image_url" whose URL is the base64
data URI built from the MIME type and the image bytes; with MIME
"image/jpeg" the URI begins with "data:image/jpeg;base64,". -/
theorem extract_request_shape (s : llm.MistralLlmService) (prompt : String)
    (image : List Nat) (mimeType : String)
    (doReq : llm.ExtractRequest → Except String HttpResponse)
    (dec : String → Except String (List llm.ChatChoice))
    (himg : image ≠ []) (hmt : mimeType ≠ "") :
    (s.ExtractTextFromImage prompt image mimeType doReq dec).2 =
      [llm.extractRequest s prompt
        ("data:" ++ mimeType ++ ";base64," ++ base64Encode image)]
    ∧ (llm.extractRequest s prompt
        ("data:" ++ mimeType ++ ";base64," ++ base64Encode image)).messages =
        [{ role := "user"
           content := [.text prompt,
             .image_url ("data:" ++ mimeType ++ ";base64," ++ base64Encode image)] }]
    ∧ (∀ m, m ∈ (llm.extractRequest s prompt
          ("data:" ++ mimeType ++ ";base64," ++ base64Encode image)).messages →
        m.role = "user"
        ∧ m.content.countP (fun p => p.partType == "text") = 1
        ∧ m.content.countP (fun p => p.partType == "image_url") = 1
        ∧ llm.MMPart.text prompt ∈ m.content
        ∧ llm.MMPart.image_url
            ("data:" ++ mimeType ++ ";base64," ++ base64Encode image) ∈ m.content)
    ∧ (mimeType = "image/jpeg" →
        ∃ rest, "data:" ++ mimeType ++ ";base64," ++ base64Encode image =
          "data:image/jpeg;base64," ++ rest) := by
  refine ⟨?_, rfl, ?_, ?_⟩
  · simp [llm.MistralLlmService.ExtractTextFromImage, himg, hmt]
  · intro m hm
    simp only [llm.extractRequest, List.mem_singleton] at hm
    subst hm
    refine ⟨rfl, ?_, ?_, ?_, ?_⟩
    · simp [List.countP_cons, llm.MMPart.partType]
    · simp [List.countP_cons, llm.MMPart.partType]
    · simp
    · simp
  · intro hj
    subst hj
    exact ⟨base64Encode image, rfl⟩

/-- The LLM service instance used by concrete witnesses (as built by
`NewMistralLlmService` from an environment supplying the key "k"). -/
def svc0 : llm.MistralLlmService :=
  { apiKey := "k", chatModel := "mistral-small-latest"
    multimodalModel := "mistral-medium-latest"
    APIBaseURL := "https://api.mistral.ai/v1" }

/-- A multimodal transport oracle that always fails at transport level. -/
def netDown : llm.ExtractRequest → Except String HttpResponse :=
  fun _ => .error "down"

/-- A chat decoder returning zero choices. -/
def decNoChoices : String → Except String (List llm.ChatChoice) :=
  fun _ => .ok []

/-- C7 (witness): the request-shape theorem at a concrete JPEG image
(bytes FF D8 FF) and the prompt "Extract wine info". -/
theorem extract_request_shape_witness :
    (svc0.ExtractTextFromImage "Extract wine info" [255, 216, 255]
      "image/jpeg" netDown decNoChoices).2 =
      [llm.extractRequest svc0 "Extract wine info"
        ("data:" ++ "image/jpeg" ++ ";base64," ++ base64Encode [255, 216, 255])]
    ∧ (llm.extractRequest svc0 "Extract wine info"
        ("data:" ++ "image/jpeg" ++ ";base64," ++ base64Encode [255, 216, 255])).messages =
        [{ role := "user"
           content := [.text "Extract wine info",
             .image_url ("data:" ++ "image/jpeg" ++ ";base64," ++
               base64Encode [255, 216, 255])] }]
    ∧ (∀ m, m ∈ (llm.extractRequest svc0 "Extract wine info"
          ("data:" ++ "image/jpeg" ++ ";base64," ++
            base64Encode [255, 216, 255])).messages →
        m.role = "user"
        ∧ m.content.countP (fun p => p.partType == "text") = 1
        ∧ m.content.countP (fun p => p.partType == "image_url") = 1
        ∧ llm.MMPart.text "Extract wine info" ∈ m.content
        ∧ llm.MMPart.image_url ("data:" ++ "image/jpeg" ++ ";base64," ++
            base64Encode [255, 216, 255]) ∈ m.content)
    ∧ ("image/jpeg" = "image/jpeg" →
        ∃ rest, "data:" ++ "image/jpeg" ++ ";base64," ++
            base64Encode [255, 216, 255] =
          "data:image/jpeg;base64," ++ rest) :=
  extract_request_shape svc0 "Extract wine info" [255, 216, 255] "image/jpeg"
    netDown decNoChoices (by decide) (by decide)

/-! ## C8 -/

/-- C8: the mock embedding provider returns an empty result with no error
and no network request for the empty string, and a vector of exactly 768
floats with no error (again with no network request) for any non-empty
string. -/
theorem mock_embeddings_behaviour :
    (∀ (m : embedding.MockService) (et : embedding.EmbeddingType),
       m.GetEmbeddings "" et = (.ok [], []))
    ∧ (∀ (m : embedding.MockService) (text : String)
         (et : embedding.EmbeddingType), text ≠ "" →
       m.GetEmbeddings text et = (.ok embedding.mockEmbedding, [])
       ∧ embedding.mockEmbedding.length = 768) := by
  constructor
  · intro m et
    rfl
  · intro m text et h
    constructor
    · simp [embedding.MockService.GetEmbeddings, h]
    · simp [embedding.mockEmbedding]

/-- C8 (witness): the mock behaviour at the concrete text "x". -/
theorem mock_embeddings_behaviour_witness :
    embedding.MockService.GetEmbeddings {} "x" "RETRIEVAL_DOCUMENT" =
      (.ok embedding.mockEmbedding, [])
    ∧ embedding.mockEmbedding.length = 768 :=
  mock_embeddings_behaviour.2 {} "x" "RETRIEVAL_DOCUMENT" (by decide)

/-! ## C9 -/

/-- C9: `GenerateText` never reports success with empty text: a nil-error
result always carries non-empty response text, and both a zero-choices
response and a first choice with empty message content produce the
"no content found" error. -/
theorem generateText_never_empty_success (s : llm.MistralLlmService)
    (prompt : String)
    (doReq : llm.ChatRequest → Except String HttpResponse)
    (dec : String → Except String (List llm.ChatChoice)) :
    (∀ t, (s.GenerateText prompt doReq dec).1 = .ok t → t ≠ "")
    ∧ (∀ resp, doReq (llm.generateTextRequest s prompt) = .ok resp →
        resp.statusCode = 200 →
        (dec resp.body = .ok [] →
          (s.GenerateText prompt doReq dec).1 =
            .error "no content found in mistral response")
        ∧ (∀ rest, dec resp.body = .ok ({ content := "" } :: rest) →
          (s.GenerateText prompt doReq dec).1 =
            .error "no content found in mistral response")) := by
  constructor
  · intro t h
    simp only [llm.MistralLlmService.GenerateText] at h
    cases hr : doReq (llm.generateTextRequest s prompt) with
    | error e => rw [hr] at h; simp [llm.generateTextResult] at h
    | ok resp =>
      rw [hr] at h
      by_cases hs : resp.statusCode = 200
      · cases hd : dec resp.body with
        | error e => simp [llm.generateTextResult, hs, hd] at h
        | ok choices =>
          cases choices with
          | nil => simp [llm.generateTextResult, hs, hd] at h
          | cons ch rest =>
            by_cases hc : ch.content = ""
            · simp [llm.generateTextResult, hs, hd, hc] at h
            · simp [llm.generateTextResult, hs, hd, hc] at h
              rw [← h]
              exact hc
      · simp [llm.generateTextResult, hs] at h
  · intro resp hr hs
    constructor
    · intro hd
      simp [llm.MistralLlmService.GenerateText, llm.generateTextResult,
        hr, hs, hd]
    · intro rest hd
      simp [llm.MistralLlmService.GenerateText, llm.generateTextResult,
        hr, hs, hd]

/-- A chat transport oracle answering every request with a 200 response. -/
def chatNet200 : llm.ChatRequest → Except String HttpResponse :=
  fun _ => .ok { statusCode := 200, status := "200 OK"
                 body := "\x7b\"choices\":[]\x7d" }

/-- C9 (witness): with a 200 response decoding to zero choices, the call
returns the "no content found" error. -/
theorem generateText_never_empty_success_witness :
    (svc0.GenerateText "test prompt" chatNet200 decNoChoices).1 =
      .error "no content found in mistral response" :=
  ((generateText_never_empty_success svc0 "test prompt" chatNet200
      decNoChoices).2
    { statusCode := 200, status := "200 OK", body := "\x7b\"choices\":[]\x7d" }
    rfl rfl).1 rfl

/-! ## C10 -/

/-- C10: `MistralService.GetEmbeddings` is independent of its
`embeddingType` argument: the single outbound request (method, URL,
headers and serialized body bytes) is exactly `mistralEmbedRequest`,
which does not mention the type, and for any two embedding types the
whole call — request trace and result — is identical. -/
theorem embeddings_independent_of_purpose (s : embedding.MistralService)
    (text : String) (et₁ et₂ : embedding.EmbeddingType)
    (doReq : HttpRequest → Except String HttpResponse)
    (dec : String → Except String (List (List Float))) :
    (s.GetEmbeddings text et₁ doReq dec).2 = [embedding.mistralEmbedRequest s text]
    ∧ s.GetEmbeddings text et₁ doReq dec = s.GetEmbeddings text et₂ doReq dec :=
  ⟨rfl, rfl⟩
